import Mathlib

/-!
Verification of the self-healing detect-and-repair loop of the vibecherry app.

The definitions below are a shallow embedding of `src/types/errors.ts`
(error taxonomy, `ErrorDetector`) and `src/utils/selfHealing.ts`
(`SelfHealingEngine`).  JavaScript strings are Lean `String`s, arrays are
`List`s, `Date.now()` is threaded as an explicit `now : Nat` parameter, the
Tauri `invoke` call to the generative service is an explicit oracle
`llm : String → Except String String`, and a thrown exception is the
`Except.error` case.
-/

namespace VibeCherry

/-- The `ErrorType` union from src/types/errors.ts. -/
inductive ErrorType where
  | syntax_error
  | runtime_error
  | render_error
  | missing_dependency
  | layout_broken
  | incomplete_code
  | llm_generation_error
  deriving DecidableEq, Repr

/-- The string value of an `ErrorType`, as JS string interpolation prints it. -/
def ErrorType.toStr : ErrorType → String
  | .syntax_error => "syntax_error"
  | .runtime_error => "runtime_error"
  | .render_error => "render_error"
  | .missing_dependency => "missing_dependency"
  | .layout_broken => "layout_broken"
  | .incomplete_code => "incomplete_code"
  | .llm_generation_error => "llm_generation_error"

/-- The `DetectedError` interface from src/types/errors.ts. -/
structure DetectedError where
  type : ErrorType
  message : String
  line : Option Nat
  column : Option Nat
  stack : Option String
  timestamp : Nat
  deriving DecidableEq, Repr

/-- An error object literal with only `type`, `message`, `timestamp`, as every
push in `detectSyntaxErrors` and `analyzeRenderedOutput` creates it. -/
def mkErr (t : ErrorType) (msg : String) (now : Nat) : DetectedError :=
  ⟨t, msg, none, none, none, now⟩

/-- The `FixStrategy` union from src/types/errors.ts. -/
inductive FixStrategy where
  | explain_and_fix
  | simplify
  | add_error_handling
  | use_alternatives
  | rebuild_from_scratch
  | add_fallbacks
  deriving DecidableEq, Repr

/-- The string value of a `FixStrategy`, as JS string interpolation prints it. -/
def FixStrategy.toStr : FixStrategy → String
  | .explain_and_fix => "explain_and_fix"
  | .simplify => "simplify"
  | .add_error_handling => "add_error_handling"
  | .use_alternatives => "use_alternatives"
  | .rebuild_from_scratch => "rebuild_from_scratch"
  | .add_fallbacks => "add_fallbacks"

/-- The `FixAttempt` interface from src/types/errors.ts. -/
structure FixAttempt where
  attemptNumber : Nat
  strategy : FixStrategy
  prompt : String
  result : Option String
  success : Bool
  errors : Option (List DetectedError)
  timestamp : Nat
  deriving DecidableEq, Repr

/-- Source `SelfHealingEngine.selectStrategy` (src/utils/selfHealing.ts lines 48-73):
the errors argument is unused (the `errorTypes` computation is commented out
in the source). -/
def selectStrategy (_errors : List DetectedError) (attemptNumber : Nat) : FixStrategy :=
  if attemptNumber = 1 then .explain_and_fix
  else if attemptNumber = 2 then .add_error_handling
  else if attemptNumber = 3 then .simplify
  else if attemptNumber = 4 then .use_alternatives
  else .rebuild_from_scratch

/-- Source `SelfHealingEngine.getStrategyInstructions` (src/utils/selfHealing.ts
lines 117-158): the instruction block template literal for each strategy. -/
def getStrategyInstructions : FixStrategy → String
  | .explain_and_fix =>
      "\n- Analyze each error carefully\n- Fix the specific issues\n- Ensure all syntax is correct\n- Return complete, working code"
  | .add_error_handling =>
      "\n- Wrap JavaScript in try-catch blocks\n- Add defensive checks (if element exists before using it)\n- Provide user-friendly error messages\n- Make the app resilient to failures"
  | .simplify =>
      "\n- Remove complex features that might be causing issues\n- Use simpler HTML/CSS/JS patterns\n- Focus on core functionality\n- Reduce dependencies"
  | .use_alternatives =>
      "\n- Try a different technical approach\n- Use vanilla JS instead of complex patterns\n- Avoid features that caused previous errors\n- Find simpler ways to achieve the same result"
  | .rebuild_from_scratch =>
      "\n- Start fresh with a simpler version\n- Focus on getting SOMETHING working first\n- Use the most basic, reliable patterns\n- Prioritize functionality over features\n- Make it bulletproof"
  | .add_fallbacks =>
      "\n- Add polyfills for missing features\n- Provide fallback content for failed loads\n- Use defensive programming\n- Ensure graceful degradation"

/-- Source `SelfHealingEngine.buildFixPrompt` (src/utils/selfHealing.ts lines 75-115):
the diagnostic prompt template literal, with `.trim()` applied at the end. -/
def buildFixPrompt (originalPrompt brokenCode : String) (errors : List DetectedError)
    (strategy : FixStrategy) (attemptNumber : Nat) : String :=
  let errorSummary :=
    String.intercalate "\n" (errors.map (fun e => "- " ++ e.type.toStr ++ ": " ++ e.message))
  let strategyInstructions := getStrategyInstructions strategy
  String.trim ("\n🔧 CODE FIXING ATTEMPT #" ++ toString attemptNumber
    ++ "\n\nORIGINAL REQUEST:\n" ++ originalPrompt
    ++ "\n\nPREVIOUS CODE (WITH ERRORS):\n```html\n" ++ brokenCode
    ++ "\n```\n\nDETECTED ERRORS:\n" ++ errorSummary
    ++ "\n\nFIX STRATEGY: " ++ strategy.toStr
    ++ "\n" ++ strategyInstructions
    ++ "\n\nCRITICAL REQUIREMENTS:\n1. Output COMPLETE, WORKING HTML (must include <!DOCTYPE html>, <html>, <head>, <body>, closing tags)\n2. All syntax must be valid (check braces, quotes, tags)\n3. Test your code mentally before responding\n4. Make it work - no placeholders or TODOs\n5. If external resources might fail, use fallbacks or inline everything\n\nNow provide the FIXED, COMPLETE code:\n")

/-- Is `pat` a prefix of `hay`? -/
def listPrefixOf : List Char → List Char → Bool
  | [], _ => true
  | _ :: _, [] => false
  | p :: ps, c :: cs => p == c && listPrefixOf ps cs

/-- Split `hay` around the first occurrence of `pat`:
`some (before, after)` with `hay = before ++ pat ++ after`, or `none`. -/
def splitFirst (pat : List Char) : List Char → Option (List Char × List Char)
  | [] => if pat.isEmpty then some ([], []) else none
  | c :: cs =>
    if listPrefixOf pat (c :: cs) then some ([], (c :: cs).drop pat.length)
    else
      match splitFirst pat cs with
      | some (pre, post) => some (c :: pre, post)
      | none => none

/-- The code extraction in `SelfHealingEngine.requestFix` (src/utils/selfHealing.ts
lines 169-171): `response.match` against a fenced html block regex (first
occurrence of the opening fence, lazily up to the next closing fence); the
captured group if found, otherwise the whole response. -/
def extractHtmlBlock (response : String) : String :=
  match splitFirst "```html\n".data response.data with
  | none => response
  | some (_, rest) =>
    match splitFirst "```".data rest with
    | none => response
    | some (body, _) => ⟨body⟩

/-- Source `SelfHealingEngine.requestFix` (src/utils/selfHealing.ts lines 160-176):
call the generative service with the prompt; on failure re-throw with the
`LLM fix request failed:` message, on success extract the fenced code block. -/
def requestFix (llm : String → Except String String) (fixPrompt : String) :
    Except String String :=
  match llm fixPrompt with
  | .error e => .error ("LLM fix request failed: " ++ e)
  | .ok response => .ok (extractHtmlBlock response)

/-- The `SelfHealingEngine` class state (src/utils/selfHealing.ts lines 4-6):
`maxAttempts` is initialized to 5 and never written again. -/
structure SelfHealingEngine where
  maxAttempts : Nat
  attemptHistory : List FixAttempt
  deriving Repr

/-- A freshly constructed `SelfHealingEngine`. -/
def SelfHealingEngine.new : SelfHealingEngine :=
  { maxAttempts := 5, attemptHistory := [] }

/-- Observable outcome of one `healCode` invocation: final engine state, how
many calls were made to the generative service, and the returned value or the
thrown error. -/
structure HealOutcome where
  engine : SelfHealingEngine
  llmCalls : Nat
  result : Except String String

/-- Source `SelfHealingEngine.healCode` (src/utils/selfHealing.ts lines 8-46).
Throwing is modelled as an `Except.error` result; the attempt record is
pushed only after `requestFix` has returned successfully, exactly as in the
source, where the `await this.requestFix(...)` precedes the
`this.attemptHistory.push(...)`. -/
def SelfHealingEngine.healCode (eng : SelfHealingEngine) (originalPrompt brokenCode : String)
    (errors : List DetectedError) (attemptNumber : Nat)
    (llm : String → Except String String) (now : Nat) : HealOutcome :=
  if attemptNumber > eng.maxAttempts then
    { engine := eng, llmCalls := 0,
      result := .error "Max healing attempts reached. Code could not be fixed." }
  else
    let strategy := selectStrategy errors attemptNumber
    let fixPrompt := buildFixPrompt originalPrompt brokenCode errors strategy attemptNumber
    match requestFix llm fixPrompt with
    | .error e => { engine := eng, llmCalls := 1, result := .error e }
    | .ok fixedCode =>
      { engine :=
          { eng with attemptHistory := eng.attemptHistory ++
              [{ attemptNumber := attemptNumber, strategy := strategy, prompt := fixPrompt,
                 result := some fixedCode, success := false, errors := some errors,
                 timestamp := now }] },
        llmCalls := 1, result := .ok fixedCode }

/-- Set the `success` flag of the last element of the list to `true`; the
identity on the empty list. -/
def markLast : List FixAttempt → List FixAttempt
  | [] => []
  | [a] => [{ a with success := true }]
  | a :: b :: rest => a :: markLast (b :: rest)

/-- Source `SelfHealingEngine.markLastAttemptSuccess` (src/utils/selfHealing.ts
lines 186-191): if the history is non-empty, set the last attempt's
`success` field to `true`. -/
def SelfHealingEngine.markLastAttemptSuccess (eng : SelfHealingEngine) : SelfHealingEngine :=
  { eng with attemptHistory := markLast eng.attemptHistory }

/-- Source `SelfHealingEngine.getAttemptHistory` (src/utils/selfHealing.ts lines 178-180). -/
def SelfHealingEngine.getAttemptHistory (eng : SelfHealingEngine) : List FixAttempt :=
  eng.attemptHistory

/-- Source `SelfHealingEngine.getAttemptCount` (src/utils/selfHealing.ts lines 194-196). -/
def SelfHealingEngine.getAttemptCount (eng : SelfHealingEngine) : Nat :=
  eng.attemptHistory.length

theorem markLast_append (h : List FixAttempt) (a : FixAttempt) :
    markLast (h ++ [a]) = h ++ [{ a with success := true }] := by
  induction h with
  | nil => rfl
  | cons x xs ih =>
    cases xs with
    | nil => cases h' : markLast ([x] ++ [a]) <;> simp_all [markLast]
    | cons y ys => simpa [markLast] using ih

/-- C1: for every defect list and every attempt ordinal, the strategy chosen
by `selectStrategy` is a pure function of the ordinal alone (the defect list
is ignored): 1 yields explain_and_fix, 2 add_error_handling, 3 simplify,
4 use_alternatives, and every ordinal of the form n + 5 (so every ordinal at
least 5, as well as the default 0 branch) yields rebuild_from_scratch;
add_fallbacks is never returned. -/
theorem C1_selectStrategy_pure (errors errors' : List DetectedError) (n : Nat) :
    selectStrategy errors n = selectStrategy errors' n ∧
    selectStrategy errors 1 = .explain_and_fix ∧
    selectStrategy errors 2 = .add_error_handling ∧
    selectStrategy errors 3 = .simplify ∧
    selectStrategy errors 4 = .use_alternatives ∧
    selectStrategy errors (n + 5) = .rebuild_from_scratch ∧
    selectStrategy errors n ≠ .add_fallbacks := by
  refine ⟨rfl, rfl, rfl, rfl, rfl, ?_, ?_⟩
  · have h1 : n + 5 ≠ 1 := by omega
    have h2 : n + 5 ≠ 2 := by omega
    have h3 : n + 5 ≠ 3 := by omega
    have h4 : n + 5 ≠ 4 := by omega
    simp [selectStrategy, h1, h2, h3, h4]
  · unfold selectStrategy
    split
    · simp
    · split
      · simp
      · split
        · simp
        · split <;> simp

/-- C2: calling `healCode` with an attempt ordinal strictly greater than the
configured maximum of 5 yields the max-attempts-exceeded error, leaves the
attempt history (indeed the whole engine state) unchanged, and performs zero
calls to the generative service, whatever the oracle is. -/
theorem C2_healCode_max_attempts (eng : SelfHealingEngine) (p c : String)
    (errs : List DetectedError) (n : Nat) (llm : String → Except String String)
    (now : Nat) (hmax : eng.maxAttempts = 5) (hn : 5 < n) :
    eng.healCode p c errs n llm now =
      { engine := eng, llmCalls := 0,
        result := .error "Max healing attempts reached. Code could not be fixed." } := by
  have h : n > eng.maxAttempts := by omega
  simp [SelfHealingEngine.healCode, h]

/-- C2 witness: the concrete instance at ordinal 6 on a fresh engine. -/
theorem C2_healCode_max_attempts_witness :
    SelfHealingEngine.new.maxAttempts = 5 ∧ 5 < 6 ∧
    (SelfHealingEngine.new.healCode "p" "c" [] 6 (fun _ => .ok "x") 0 =
      { engine := SelfHealingEngine.new, llmCalls := 0,
        result := .error "Max healing attempts reached. Code could not be fixed." }) :=
  ⟨rfl, by omega,
    C2_healCode_max_attempts SelfHealingEngine.new "p" "c" [] 6 (fun _ => .ok "x") 0 rfl
      (by omega)⟩

/-- C3 counterexample: on a fresh engine, at ordinal 1, with a generative
service that fails, `healCode` propagates the repair-request-failed error but
appends no `FixAttempt` at all to the history — the history is still empty
afterwards, refuting the claim that an attempt record is appended before the
error propagates. -/
theorem C3_no_attempt_recorded_on_failure :
    (SelfHealingEngine.new.healCode "make a page" "<html>" [] 1
        (fun _ => .error "network down") 0).engine.attemptHistory = [] ∧
    (SelfHealingEngine.new.healCode "make a page" "<html>" [] 1
        (fun _ => .error "network down") 0).result =
      .error "LLM fix request failed: network down" :=
  ⟨rfl, rfl⟩

/-- C3 amended: when the generative call fails, `healCode` makes exactly one
call, propagates the repair-request-failed error to the caller, and appends
no `FixAttempt` to the history (the engine state is unchanged); an attempt is
recorded only when the call succeeds. -/
theorem C3_failure_propagates_without_record (eng : SelfHealingEngine) (p c : String)
    (errs : List DetectedError) (n : Nat) (llm : String → Except String String)
    (now : Nat) (e : String) (hn : ¬ n > eng.maxAttempts)
    (hfail : llm (buildFixPrompt p c errs (selectStrategy errs n) n) = .error e) :
    eng.healCode p c errs n llm now =
      { engine := eng, llmCalls := 1,
        result := .error ("LLM fix request failed: " ++ e) } := by
  simp [SelfHealingEngine.healCode, hn, requestFix, hfail]

/-- C3 amended witness: the concrete instance at ordinal 1 with a failing
generative service. -/
theorem C3_failure_propagates_without_record_witness :
    (¬ 1 > SelfHealingEngine.new.maxAttempts) ∧
    ((fun _ : String => (Except.error "boom" : Except String String))
        (buildFixPrompt "p" "c" [] (selectStrategy [] 1) 1) =
      (Except.error "boom" : Except String String)) ∧
    (SelfHealingEngine.new.healCode "p" "c" [] 1
        (fun _ => (Except.error "boom" : Except String String)) 0 =
      { engine := SelfHealingEngine.new, llmCalls := 1,
        result := .error "LLM fix request failed: boom" }) := by
  refine ⟨by decide, rfl, ?_⟩
  exact C3_failure_propagates_without_record SelfHealingEngine.new "p" "c" [] 1
    (fun _ => (Except.error "boom" : Except String String)) 0 "boom" (by decide) rfl

/-- C6: `markLastAttemptSuccess` maps a history of the form `h ++ [a]` to
`h ++ [a with success := true]` — only the `success` field of the most
recent attempt changes, every earlier attempt is untouched — and is a no-op
on an engine with empty history; consequently, if every prior attempt had
`success = false`, afterwards exactly the last attempt has `success = true`. -/
theorem C6_markLastAttemptSuccess_spec (m : Nat) (h : List FixAttempt) (a : FixAttempt) :
    (SelfHealingEngine.mk m (h ++ [a])).markLastAttemptSuccess =
      SelfHealingEngine.mk m (h ++ [{ a with success := true }]) ∧
    (SelfHealingEngine.mk m []).markLastAttemptSuccess = SelfHealingEngine.mk m [] ∧
    ((∀ x ∈ h, x.success = false) →
      ({ a with success := true } : FixAttempt).success = true ∧
      ∀ x ∈ ((SelfHealingEngine.mk m (h ++ [a])).markLastAttemptSuccess).attemptHistory.dropLast,
        x.success = false) := by
  refine ⟨?_, rfl, ?_⟩
  · simp [SelfHealingEngine.markLastAttemptSuccess, markLast_append]
  · intro hall
    refine ⟨rfl, ?_⟩
    simp [SelfHealingEngine.markLastAttemptSuccess, markLast_append]
    exact hall

/-- A concrete unsuccessful attempt, for the C6 witness. -/
def attemptA : FixAttempt :=
  { attemptNumber := 1, strategy := .explain_and_fix, prompt := "p1",
    result := some "r1", success := false, errors := some [], timestamp := 0 }

/-- A second concrete unsuccessful attempt, for the C6 witness. -/
def attemptB : FixAttempt :=
  { attemptNumber := 2, strategy := .add_error_handling, prompt := "p2",
    result := some "r2", success := false, errors := some [], timestamp := 1 }

/-- C6 witness: the concrete instance on a two-attempt history whose entries
are both unsuccessful. -/
theorem C6_markLastAttemptSuccess_witness :
    (∀ x ∈ [attemptA], x.success = false) ∧
    ((SelfHealingEngine.mk 5 ([attemptA] ++ [attemptB])).markLastAttemptSuccess =
      SelfHealingEngine.mk 5 ([attemptA] ++ [{ attemptB with success := true }])) ∧
    (∀ x ∈ ((SelfHealingEngine.mk 5 ([attemptA] ++ [attemptB])).markLastAttemptSuccess).attemptHistory.dropLast,
        x.success = false) := by
  have hall : ∀ x ∈ [attemptA], x.success = false := by
    intro x hx
    simp only [List.mem_singleton] at hx
    subst hx
    rfl
  have h := C6_markLastAttemptSuccess_spec 5 [attemptA] attemptB
  exact ⟨hall, h.1, (h.2.2 hall).2⟩

/-! Stage A static analysis: `ErrorDetector.detectSyntaxErrors`
(src/types/errors.ts lines 44-183).  The two regex scans
`/<([a-z][a-z0-9]*)\b[^>]*>/gi` and `/<\/([a-z][a-z0-9]*)>/gi` and the script
block handling are embedded as scanners over the artifact's character list,
reproducing the regex engine's behaviour: a global scan restarts one
character after a failed start position and immediately after a successful
match. -/

/-- ASCII letter, as the class `[a-z]` under the `i` flag matches it. -/
def isAsciiLetter (c : Char) : Bool :=
  ('a' ≤ c && c ≤ 'z') || ('A' ≤ c && c ≤ 'Z')

/-- ASCII digit. -/
def isAsciiDigit (c : Char) : Bool :=
  '0' ≤ c && c ≤ '9'

/-- A character of the class `[a-z0-9]` under the `i` flag. -/
def isNameChar (c : Char) : Bool :=
  isAsciiLetter c || isAsciiDigit c

/-- A word character for the JS `\b` boundary: `[A-Za-z0-9_]`. -/
def isWordChar (c : Char) : Bool :=
  isNameChar c || c == '_'

/-- Does `hay` start with a word character?  Used for the `\b` boundary after
a tag name: the boundary fails exactly when a word character follows (the
greedy name has already consumed every letter and digit). -/
def headIsWordChar : List Char → Bool
  | [] => false
  | c :: _ => isWordChar c

/-- Drop characters up to and including the first `>` (the regex tail
`[^>]*>`): `some` of the remainder after the `>`, or `none` if there is no
`>`. -/
def dropToGt : List Char → Option (List Char)
  | [] => none
  | c :: cs => if c = '>' then some cs else dropToGt cs

theorem dropToGt_length : ∀ cs r, dropToGt cs = some r → r.length < cs.length := by
  intro cs
  induction cs with
  | nil => intro r h; simp [dropToGt] at h
  | cons c cs ih =>
    intro r h
    simp only [dropToGt] at h
    split at h
    · cases h; simp
    · exact Nat.lt_trans (ih r h) (Nat.lt_succ_self _)

theorem length_dropWhileList (p : Char → Bool) (l : List Char) :
    (l.dropWhile p).length ≤ l.length := by
  induction l with
  | nil => simp [List.dropWhile]
  | cons c cs ih =>
    simp only [List.dropWhile]
    split
    · exact Nat.le_trans ih (Nat.le_succ _)
    · exact Nat.le_refl _

/-- Does `hay` start with an ASCII letter?  The leading `[a-z]` (flag `i`) of
a captured tag name. -/
def headIsAsciiLetter : List Char → Bool
  | [] => false
  | c :: _ => isAsciiLetter c

/-- Try to match the open-tag pattern `([a-z][a-z0-9]*)\b[^>]*>` (flag `i`)
at the position just after a `<`: `some` of the lowercased captured name and
the remainder after the closing `>`, else `none`.  When the word boundary
after the greedy name fails, every shorter split of the name also sits
between two word characters, so the whole start position fails. -/
def tryOpenAt (cs : List Char) : Option (String × List Char) :=
  if headIsAsciiLetter cs && !headIsWordChar (cs.dropWhile isNameChar) then
    (dropToGt (cs.dropWhile isNameChar)).map
      (fun r2 => (⟨(cs.takeWhile isNameChar).map Char.toLower⟩, r2))
  else none

theorem tryOpenAt_length (cs : List Char) (name : String) (r2 : List Char)
    (h : tryOpenAt cs = some (name, r2)) : r2.length < cs.length := by
  unfold tryOpenAt at h
  split at h
  · rw [Option.map_eq_some'] at h
    obtain ⟨r, hr, heq⟩ := h
    cases heq
    exact Nat.lt_of_lt_of_le (dropToGt_length _ _ hr) (length_dropWhileList isNameChar _)
  · exact absurd h (by simp)

/-- A global regex scan: at each `<`, attempt the pattern via `t`; a match
contributes its capture and the scan resumes after the match, a failure
resumes one character after the `<`.  Structurally recursive on a fuel
argument so that the scan is kernel-computable; each step consumes at least
one character, so `cs.length` fuel always suffices (`scanWithF_mono` and
`scanWith_cons` below make this exact). -/
def scanWithF {α : Type} (t : List Char → Option (α × List Char)) :
    Nat → List Char → List α
  | 0, _ => []
  | _ + 1, [] => []
  | fuel + 1, c :: rest =>
    if c = '<' then
      match t rest with
      | some (a, r2) => a :: scanWithF t fuel r2
      | none => scanWithF t fuel rest
    else scanWithF t fuel rest

/-- The scan with its canonical fuel. -/
def scanWith {α : Type} (t : List Char → Option (α × List Char)) (cs : List Char) : List α :=
  scanWithF t cs.length cs

theorem scanWithF_mono {α : Type} (t : List Char → Option (α × List Char))
    (hlen : ∀ cs a r, t cs = some (a, r) → r.length < cs.length) :
    ∀ f g cs, cs.length ≤ f → cs.length ≤ g → scanWithF t f cs = scanWithF t g cs := by
  intro f
  induction f using Nat.strong_induction_on with
  | _ f ih =>
    intro g cs hf hg
    cases cs with
    | nil => cases f <;> cases g <;> rfl
    | cons c rest =>
      cases f with
      | zero => simp at hf
      | succ fp =>
        cases g with
        | zero => simp at hg
        | succ gp =>
          simp only [List.length_cons] at hf hg
          simp only [scanWithF]
          split
          · cases htry : t rest with
            | some pr =>
              obtain ⟨a, r2⟩ := pr
              have h2 := hlen rest a r2 htry
              dsimp only
              rw [ih fp (by omega) gp r2 (by omega) (by omega)]
            | none =>
              rw [ih fp (by omega) gp rest (by omega) (by omega)]
          · rw [ih fp (by omega) gp rest (by omega) (by omega)]

theorem scanWith_nil {α : Type} (t : List Char → Option (α × List Char)) :
    scanWith t [] = [] := rfl

/-- The stepping equation of the scan: fuel `cs.length` behaves exactly as
the unbounded recursion would. -/
theorem scanWith_cons {α : Type} (t : List Char → Option (α × List Char))
    (hlen : ∀ cs a r, t cs = some (a, r) → r.length < cs.length) (c : Char) (rest : List Char) :
    scanWith t (c :: rest) =
      (if c = '<' then
        match t rest with
        | some (a, r2) => a :: scanWith t r2
        | none => scanWith t rest
      else scanWith t rest) := by
  unfold scanWith
  simp only [List.length_cons, scanWithF]
  split
  · cases htry : t rest with
    | some pr =>
      obtain ⟨a, r2⟩ := pr
      have h2 := hlen rest a r2 htry
      dsimp only
      rw [scanWithF_mono t hlen rest.length r2.length r2 (by omega) (by omega)]
    | none => rfl
  · rfl

/-- The open-tag scan `while ((match = tagPattern.exec(code)) !== null)`:
the lowercased names of the matches of `/<([a-z][a-z0-9]*)\b[^>]*>/gi`, in
order. -/
def scanOpenTags (cs : List Char) : List String :=
  scanWith tryOpenAt cs

/-- The scan `scanOpenTags` satisfies the intended recursion. -/
theorem scanOpenTags_cons (c : Char) (rest : List Char) :
    scanOpenTags (c :: rest) =
      (if c = '<' then
        match tryOpenAt rest with
        | some (a, r2) => a :: scanOpenTags r2
        | none => scanOpenTags rest
      else scanOpenTags rest) := by
  unfold scanOpenTags scanWith
  simp only [List.length_cons, scanWithF]
  split
  · cases htry : tryOpenAt rest with
    | some pr =>
      obtain ⟨a, r2⟩ := pr
      have h2 := tryOpenAt_length rest a r2 htry
      dsimp only
      rw [scanWithF_mono tryOpenAt tryOpenAt_length rest.length r2.length r2 (by omega) (by omega)]
    | none => rfl
  · rfl

/-- The part of the closing-tag pattern after `<\/`: an ASCII letter, the
greedy name characters, then a literal `>`; `some` of the lowercased name and
the remainder after the `>`. -/
def tryCloseAfterSlash (rest : List Char) : Option (String × List Char) :=
  if headIsAsciiLetter rest then
    match rest.dropWhile isNameChar with
    | '>' :: r2 => some (⟨(rest.takeWhile isNameChar).map Char.toLower⟩, r2)
    | _ => none
  else none

theorem tryCloseAfterSlash_length (rest : List Char) (name : String) (r2 : List Char)
    (h : tryCloseAfterSlash rest = some (name, r2)) : r2.length < rest.length := by
  unfold tryCloseAfterSlash at h
  split at h
  · split at h
    · rename_i heq
      cases h
      have h1 : ('>' :: r2).length ≤ rest.length := by
        rw [← heq]; exact length_dropWhileList isNameChar rest
      simp only [List.length_cons] at h1
      omega
    · exact absurd h (by simp)
  · exact absurd h (by simp)

/-- Try to match the closing-tag pattern `\/([a-z][a-z0-9]*)>` (flag `i`) at
the position just after a `<`: `some` of the lowercased captured name and the
remainder after the `>`, else `none`. -/
def tryCloseAt : List Char → Option (String × List Char)
  | '/' :: rest => tryCloseAfterSlash rest
  | _ => none

theorem tryCloseAt_length (cs : List Char) (name : String) (r2 : List Char)
    (h : tryCloseAt cs = some (name, r2)) : r2.length < cs.length := by
  unfold tryCloseAt at h
  split at h
  · rename_i rest
    have := tryCloseAfterSlash_length rest name r2 h
    simp only [List.length_cons]
    omega
  · exact absurd h (by simp)

/-- The closing-tag scan: the lowercased names of the matches of
`/<\/([a-z][a-z0-9]*)>/gi`, in order. -/
def scanCloseTags (cs : List Char) : List String :=
  scanWith tryCloseAt cs

/-- The scan `scanCloseTags` satisfies the intended recursion. -/
theorem scanCloseTags_cons (c : Char) (rest : List Char) :
    scanCloseTags (c :: rest) =
      (if c = '<' then
        match tryCloseAt rest with
        | some (a, r2) => a :: scanCloseTags r2
        | none => scanCloseTags rest
      else scanCloseTags rest) := by
  unfold scanCloseTags scanWith
  simp only [List.length_cons, scanWithF]
  split
  · cases htry : tryCloseAt rest with
    | some pr =>
      obtain ⟨a, r2⟩ := pr
      have h2 := tryCloseAt_length rest a r2 htry
      dsimp only
      rw [scanWithF_mono tryCloseAt tryCloseAt_length rest.length r2.length r2 (by omega) (by omega)]
    | none => rfl
  · rfl

/-- The void-tag exemption list (src/types/errors.ts line 79). -/
def voidTags : List String := ["br", "hr", "img", "input", "meta", "link"]

/-- The `openTags` array after the first while loop: every open-tag match
whose name is not in the void list, in order (src/types/errors.ts
lines 77-82). -/
def collectOpenTags (cs : List Char) : List String :=
  (scanOpenTags cs).filter (fun t => !(voidTags.contains t))

/-- JS `Array.prototype.lastIndexOf`: the index of the last occurrence, if any. -/
def lastIndexOf (l : List String) (a : String) : Option Nat :=
  match l with
  | [] => none
  | x :: xs =>
    match lastIndexOf xs a with
    | some i => some (i + 1)
    | none => if x = a then some 0 else none

/-- The second while loop (src/types/errors.ts lines 86-98): fold the closing
tags over the `openTags` array; a closing tag with a `lastIndexOf` hit
splices that entry out, one with no hit is recorded as unexpected.  Returns
the remaining `openTags` and the unexpected closing-tag names in encounter
order. -/
def processClosings (stack : List String) : List String → List String × List String
  | [] => (stack, [])
  | c :: cs =>
    match lastIndexOf stack c with
    | none =>
      let r := processClosings stack cs
      (r.1, c :: r.2)
    | some i => processClosings (stack.eraseIdx i) cs

/-- JS `Array.prototype.join(', ')`. -/
def joinComma : List String → String
  | [] => ""
  | [s] => s
  | s :: rest => s ++ ", " ++ joinComma rest

/-- The tag-balance errors of Stage A (src/types/errors.ts lines 72-106):
one syntax error per unexpected closing tag, then, if any open tags remain,
a single syntax error listing all of them. -/
def tagBalanceErrors (code : String) (now : Nat) : List DetectedError :=
  let res := processClosings (collectOpenTags code.data) (scanCloseTags code.data)
  res.2.map (fun t => mkErr .syntax_error ("Unexpected closing tag: </" ++ t ++ ">") now)
    ++ (if res.1.isEmpty then []
        else [mkErr .syntax_error ("Unclosed tags: " ++ joinComma res.1) now])

/-- Case-insensitive prefix match: `pat` (given lowercase) against `hay`
lowered character-wise, as the `i` flag compares ASCII letters. -/
def ciPrefixOf : List Char → List Char → Bool
  | [], _ => true
  | _ :: _, [] => false
  | p :: ps, c :: cs => Char.toLower c == p && ciPrefixOf ps cs

/-- Split off the characters up to and including the first `>`:
`some (consumed, rest)` or `none` if there is no `>`. -/
def splitAtGt : List Char → Option (List Char × List Char)
  | [] => none
  | c :: cs =>
    if c = '>' then some ([c], cs)
    else
      match splitAtGt cs with
      | some (pre, rest) => some (c :: pre, rest)
      | none => none

theorem splitAtGt_length : ∀ cs pre rest, splitAtGt cs = some (pre, rest) →
    rest.length < cs.length := by
  intro cs
  induction cs with
  | nil => intro pre rest h; simp [splitAtGt] at h
  | cons c cs ih =>
    intro pre rest h
    simp only [splitAtGt] at h
    split at h
    · cases h; simp
    · split at h
      · rename_i pr heq
        cases h
        exact Nat.lt_trans (ih _ _ heq) (Nat.lt_succ_self _)
      · exact absurd h (by simp)

/-- Split `hay` at the first case-insensitive occurrence of `</script>` (the
lazy group `([\s\S]*?)` up to the literal close tag): `some` of the body
before the tag, the nine original characters of the tag, and the remainder
after it. -/
def splitAtCloseScript : List Char → Option (List Char × List Char × List Char)
  | [] => none
  | c :: cs =>
    if ciPrefixOf "</script>".data (c :: cs) then
      some ([], (c :: cs).take 9, (c :: cs).drop 9)
    else
      match splitAtCloseScript cs with
      | some (body, close9, rest) => some (c :: body, close9, rest)
      | none => none

theorem splitAtCloseScript_length : ∀ cs body close9 rest,
    splitAtCloseScript cs = some (body, close9, rest) → rest.length < cs.length := by
  intro cs
  induction cs with
  | nil => intro b c9 r h; simp [splitAtCloseScript] at h
  | cons c cs ih =>
    intro b c9 r h
    simp only [splitAtCloseScript] at h
    split at h
    · cases h
      simp only [List.length_drop, List.length_cons]
      omega
    · split at h
      · rename_i pr heq
        cases h
        exact Nat.lt_trans (ih _ _ _ heq) (Nat.lt_succ_self _)
      · exact absurd h (by simp)

theorem ciPrefixOf_length : ∀ p hay, ciPrefixOf p hay = true → p.length ≤ hay.length := by
  intro p
  induction p with
  | nil => intro hay _; simp
  | cons x xs ih =>
    intro hay h
    cases hay with
    | nil => simp [ciPrefixOf] at h
    | cons c cs =>
      simp only [ciPrefixOf, Bool.and_eq_true] at h
      simp only [List.length_cons]
      exact Nat.succ_le_succ (ih cs h.2)

/-- Try to match the full script-block pattern `script[^>]*>([\s\S]*?)<\/script>`
(flag `i`) at the position just after a `<`: `some` of the whole matched text
(with the leading `<`, original casing preserved) and the remainder. -/
def tryScriptAt (cs : List Char) : Option (List Char × List Char) :=
  if ciPrefixOf "script".data cs then
    (splitAtGt (cs.drop 6)).bind (fun pr =>
      (splitAtCloseScript pr.2).map (fun trip =>
        ('<' :: (cs.take 6 ++ pr.1 ++ trip.1 ++ trip.2.1), trip.2.2)))
  else none

theorem tryScriptAt_length (cs m rest : List Char)
    (h : tryScriptAt cs = some (m, rest)) : rest.length < cs.length := by
  unfold tryScriptAt at h
  split at h
  · rw [Option.bind_eq_some] at h
    obtain ⟨pr, hgt, hmap⟩ := h
    obtain ⟨hdr, afterHdr⟩ := pr
    rw [Option.map_eq_some'] at hmap
    obtain ⟨trip, hclose, heq⟩ := hmap
    obtain ⟨body, c9, r2⟩ := trip
    cases heq
    have h1 := splitAtCloseScript_length _ _ _ _ hclose
    have h2 := splitAtGt_length _ _ _ hgt
    have h3 : (cs.drop 6).length ≤ cs.length := by
      simp only [List.length_drop]; omega
    dsimp only at h1 h2 ⊢
    omega
  · exact absurd h (by simp)

/-- The matches of `code.match(/<script[^>]*>([\s\S]*?)<\/script>/gi)`, in
order (src/types/errors.ts line 109); `null` and the empty match list
coincide as `[]`. -/
def scanScripts (cs : List Char) : List (List Char) :=
  scanWith tryScriptAt cs

/-- The scan `scanScripts` satisfies the intended recursion. -/
theorem scanScripts_cons (c : Char) (rest : List Char) :
    scanScripts (c :: rest) =
      (if c = '<' then
        match tryScriptAt rest with
        | some (a, r2) => a :: scanScripts r2
        | none => scanScripts rest
      else scanScripts rest) := by
  unfold scanScripts scanWith
  simp only [List.length_cons, scanWithF]
  split
  · cases htry : tryScriptAt rest with
    | some pr =>
      obtain ⟨a, r2⟩ := pr
      have h2 := tryScriptAt_length rest a r2 htry
      dsimp only
      rw [scanWithF_mono tryScriptAt tryScriptAt_length rest.length r2.length r2 (by omega) (by omega)]
    | none => rfl
  · rfl

/-- Try to match the first replace alternative `script[^>]*>` (flag `i`) at
the position just after a `<`: `some` of the remainder after the `>`. -/
def tryOpenScriptTag (cs : List Char) : Option (List Char) :=
  if ciPrefixOf "script".data cs then dropToGt (cs.drop 6)
  else none

theorem tryOpenScriptTag_length (cs rest : List Char)
    (h : tryOpenScriptTag cs = some rest) : rest.length < cs.length := by
  unfold tryOpenScriptTag at h
  split at h
  · rename_i hci
    have h1 := dropToGt_length _ _ h
    have h6 : ("script".data).length ≤ cs.length := ciPrefixOf_length _ _ hci
    have h7 : ("script".data).length = 6 := rfl
    simp only [List.length_drop] at h1
    omega
  · exact absurd h (by simp)

/-- Try to match the second replace alternative `\/script>` (flag `i`) at the
position just after a `<`: `some` of the remainder after the tag. -/
def tryCloseScriptTag (cs : List Char) : Option (List Char) :=
  if ciPrefixOf "/script>".data cs then some (cs.drop 8) else none

theorem tryCloseScriptTag_length (cs rest : List Char)
    (h : tryCloseScriptTag cs = some rest) : rest.length < cs.length := by
  unfold tryCloseScriptTag at h
  split at h
  · rename_i hci
    cases h
    have h8 : ("/script>".data).length ≤ cs.length := ciPrefixOf_length _ _ hci
    have h9 : ("/script>".data).length = 8 := rfl
    simp only [List.length_drop]
    omega
  · exact absurd h (by simp)

/-- Fuel-indexed body of `stripScriptTags`; as with `scanWithF`, each step
consumes at least one character, so `cs.length` fuel always suffices. -/
def stripScriptTagsF : Nat → List Char → List Char
  | 0, _ => []
  | _ + 1, [] => []
  | fuel + 1, c :: rest =>
    if c = '<' then
      match tryOpenScriptTag rest with
      | some r2 => stripScriptTagsF fuel r2
      | none =>
        match tryCloseScriptTag rest with
        | some r2 => stripScriptTagsF fuel r2
        | none => c :: stripScriptTagsF fuel rest
    else c :: stripScriptTagsF fuel rest

theorem stripScriptTagsF_mono :
    ∀ f g cs, cs.length ≤ f → cs.length ≤ g →
      stripScriptTagsF f cs = stripScriptTagsF g cs := by
  intro f
  induction f using Nat.strong_induction_on with
  | _ f ih =>
    intro g cs hf hg
    cases cs with
    | nil => cases f <;> cases g <;> rfl
    | cons c rest =>
      cases f with
      | zero => simp at hf
      | succ fp =>
        cases g with
        | zero => simp at hg
        | succ gp =>
          simp only [List.length_cons] at hf hg
          simp only [stripScriptTagsF]
          split
          · cases hop : tryOpenScriptTag rest with
            | some r2 =>
              have h2 := tryOpenScriptTag_length rest r2 hop
              dsimp only
              rw [ih fp (by omega) gp r2 (by omega) (by omega)]
            | none =>
              dsimp only
              cases hcl : tryCloseScriptTag rest with
              | some r2 =>
                have h2 := tryCloseScriptTag_length rest r2 hcl
                dsimp only
                rw [ih fp (by omega) gp r2 (by omega) (by omega)]
              | none =>
                dsimp only
                rw [ih fp (by omega) gp rest (by omega) (by omega)]
          · rw [ih fp (by omega) gp rest (by omega) (by omega)]

/-- JS `script.replace(/<script[^>]*>|<\/script>/gi, '')` (src/types/errors.ts
line 112): remove every occurrence of either alternative, scanning left to
right, first alternative tried first. -/
def stripScriptTags (cs : List Char) : List Char :=
  stripScriptTagsF cs.length cs

/-- The function `stripScriptTags` satisfies the intended recursion. -/
theorem stripScriptTags_cons (c : Char) (rest : List Char) :
    stripScriptTags (c :: rest) =
      (if c = '<' then
        match tryOpenScriptTag rest with
        | some r2 => stripScriptTags r2
        | none =>
          match tryCloseScriptTag rest with
          | some r2 => stripScriptTags r2
          | none => c :: stripScriptTags rest
      else c :: stripScriptTags rest) := by
  unfold stripScriptTags
  simp only [List.length_cons, stripScriptTagsF]
  split
  · cases hop : tryOpenScriptTag rest with
    | some r2 =>
      have h2 := tryOpenScriptTag_length rest r2 hop
      dsimp only
      rw [stripScriptTagsF_mono rest.length r2.length r2 (by omega) (by omega)]
    | none =>
      dsimp only
      cases hcl : tryCloseScriptTag rest with
      | some r2 =>
        have h2 := tryCloseScriptTag_length rest r2 hcl
        dsimp only
        rw [stripScriptTagsF_mono rest.length r2.length r2 (by omega) (by omega)]
      | none => rfl
  · rfl

/-- Does `hay` contain `pat`?  `String.prototype.includes`. -/
def containsCL (pat : List Char) : List Char → Bool
  | [] => pat.isEmpty
  | c :: cs => listPrefixOf pat (c :: cs) || containsCL pat cs

/-- JS `code.includes(pat)`. -/
def strIncludes (code pat : String) : Bool :=
  containsCL pat.data code.data

/-- The checks run on one stripped script body (src/types/errors.ts
lines 114-143): incomplete function declaration, unmatched braces, unmatched
parentheses. -/
def scriptCheckErrors (js : List Char) (now : Nat) : List DetectedError :=
  (if containsCL "function (".data js && !(js.contains ')') then
    [mkErr .syntax_error "Incomplete function declaration" now]
  else [])
  ++ (if js.count '{' ≠ js.count '}' then
    [mkErr .syntax_error ("Unmatched braces: " ++
      (toString (js.count '{') ++ (" open, " ++ (toString (js.count '}') ++ " close")))) now]
  else [])
  ++ (if js.count '(' ≠ js.count ')' then
    [mkErr .syntax_error ("Unmatched parentheses: " ++
      (toString (js.count '(') ++ (" open, " ++ (toString (js.count ')') ++ " close")))) now]
  else [])

/-- The script-block errors of Stage A (src/types/errors.ts lines 109-145):
each matched script block is stripped of script tags and checked. -/
def scriptErrors (code : String) (now : Nat) : List DetectedError :=
  ((scanScripts code.data).map stripScriptTags).flatMap (fun js => scriptCheckErrors js now)

/-- Source `ErrorDetector.detectSyntaxErrors` (src/types/errors.ts lines 44-183):
the full Stage A static check, with the error pushes in source order.  The
structure checks for the DOCTYPE declaration, the `<html>` tag and the
closing `</html>` tag each appear twice in the source (lines 48-70 and
lines 147-180), so they are emitted twice here as well. -/
def detectSyntaxErrors (code : String) (now : Nat) : List DetectedError :=
  (if !(strIncludes code "<!DOCTYPE html>") then
    [mkErr .syntax_error "Missing DOCTYPE declaration" now] else [])
  ++ (if !(strIncludes code "<html") then
    [mkErr .syntax_error "Missing <html> tag" now] else [])
  ++ (if !(strIncludes code "</html>") then
    [mkErr .incomplete_code "Missing closing </html> tag" now] else [])
  ++ tagBalanceErrors code now
  ++ scriptErrors code now
  ++ (if !(strIncludes code "</html>") then
    [mkErr .incomplete_code "HTML document appears incomplete (missing </html>)" now] else [])
  ++ (if !(strIncludes code "<!DOCTYPE html>") then
    [mkErr .syntax_error "Missing DOCTYPE declaration" now] else [])
  ++ (if !(strIncludes code "<html") then
    [mkErr .syntax_error "Missing <html> tag" now] else [])
  ++ (if !(strIncludes code "<body") then
    [mkErr .syntax_error "Missing <body> tag" now] else [])

/-- An image element as Stage C inspects it: `img.complete` and
`img.naturalWidth`. -/
structure RImage where
  complete : Bool
  naturalWidth : Nat
  deriving Repr

/-- An element of the rendered document with its computed style (as
`getComputedStyle` reports it) and its text content (`null` for none). -/
structure RElem where
  display : String
  width : String
  height : String
  textContent : Option String
  deriving Repr

/-- The rendered document body: `innerHTML` and `innerText`. -/
structure RBody where
  innerHTML : String
  innerText : String
  deriving Repr

/-- The rendered document snapshot Stage C reads: `doc.body` (null before a
body exists), the image elements, all elements with their computed styles,
and whether `doc.defaultView` is non-null (`getComputedStyle` is reached
through it with optional chaining). -/
structure RDoc where
  body : Option RBody
  images : List RImage
  elements : List RElem
  defaultViewPresent : Bool
  deriving Repr

/-- A rendering surface window: `contentWindow.document` may be null. -/
structure RWindow where
  document : Option RDoc
  deriving Repr

/-- The monitored iframe: `iframe.contentWindow` may be null. -/
structure Iframe where
  contentWindow : Option RWindow
  deriving Repr

/-- The `ErrorDetector` class state (src/types/errors.ts lines 39-41): the
runtime-defect buffer `errorLog` and the monitored iframe (null until
`monitorIframe` attaches one). -/
structure ErrorDetector where
  errorLog : List DetectedError
  iframe : Option Iframe
  deriving Repr

/-- The line-250 test `!doc.body || doc.body.innerHTML.trim().length === 0`. -/
def bodyIsEmpty (doc : RDoc) : Bool :=
  match doc.body with
  | none => true
  | some b => b.innerHTML.trim.length == 0

/-- Source `ErrorDetector.analyzeRenderedOutput` (src/types/errors.ts lines 235-302),
Stage C post-render inspection.  A thrown JS exception is the `Except.error`
case.  The guard at line 238 turns an unreachable document into a
`render_error` defect; but after the guarded empty-body check at line 250,
line 259 dereferences `doc.body.innerText` without a guard, so a document
whose `body` is null makes the method throw a `TypeError` (the model's error
string stands in for the engine-specific message), discarding the defect
list built so far.  The `> styledElements.length * 0.5` comparison of
line 293 is the exact integer comparison `2 * unstyled > total` (the float
product `n * 0.5` is exact for any realistic element count). -/
def ErrorDetector.analyzeRenderedOutput (d : ErrorDetector) (now : Nat) :
    Except String (List DetectedError) :=
  match (d.iframe.bind (fun f => f.contentWindow)).bind (fun w => w.document) with
  | none => .ok [mkErr .render_error "Failed to render content in iframe" now]
  | some doc =>
    let e1 :=
      if bodyIsEmpty doc then
        [mkErr .render_error "Document body is empty - nothing rendered" now]
      else []
    match doc.body with
    | none => .error "TypeError: cannot read innerText of null document body"
    | some body =>
      let bodyText := body.innerText.data.map Char.toLower
      let e2 :=
        if containsCL "uncaught".data bodyText || containsCL "syntaxerror".data bodyText then
          [mkErr .runtime_error "Error messages visible in rendered output" now]
        else []
      let failedImages := doc.images.filter (fun im => !im.complete || im.naturalWidth == 0)
      let e3 :=
        if 0 < failedImages.length then
          [mkErr .missing_dependency
            (toString failedImages.length ++ " image(s) failed to load") now]
        else []
      let unstyled := doc.elements.filter (fun el =>
        doc.defaultViewPresent && el.display == "inline" && el.width == "auto"
          && el.height == "auto" && ((el.textContent.map String.trim).getD "" == ""))
      let e4 :=
        if doc.elements.length < 2 * unstyled.length then
          [mkErr .layout_broken "Many elements appear unstyled - possible CSS issues" now]
        else []
      .ok (e1 ++ e2 ++ e3 ++ e4)

/-- A rendered document whose body is null (a document exists but no body —
the very state the line-250 guard anticipates). -/
def nullBodyDoc : RDoc :=
  { body := none, images := [], elements := [], defaultViewPresent := true }

/-- A detector attached to a surface whose document has a null body. -/
def nullBodyDetector : ErrorDetector :=
  { errorLog := [],
    iframe := some { contentWindow := some { document := some nullBodyDoc } } }

/-- A detector with no surface attached at all. -/
def noSurfaceDetector : ErrorDetector :=
  { errorLog := [], iframe := none }

/-- The `detectSyntaxErrors` method as invoked on a detector instance: the
method body never reads or writes any instance field, so the state passes
through unchanged and the returned list is the pure `detectSyntaxErrors`. -/
def ErrorDetector.detectSyntaxErrorsM (d : ErrorDetector) (code : String) (now : Nat) :
    List DetectedError × ErrorDetector :=
  (detectSyntaxErrors code now, d)

/-- Source `ErrorDetector.getErrors` (src/types/errors.ts lines 305-307). -/
def ErrorDetector.getErrors (d : ErrorDetector) : List DetectedError :=
  d.errorLog

/-- The kind and message of a defect — the run-independent content of a
`DetectedError` (its `timestamp` is the wall clock at push time). -/
def errKindMsg (e : DetectedError) : ErrorType × String :=
  (e.type, e.message)

/-- Does the defect's message start with `Unexpected closing tag: `? -/
def isUnexpectedClosingMsg (e : DetectedError) : Bool :=
  listPrefixOf "Unexpected closing tag: ".data e.message.data

/-- Does the defect's message start with `Unclosed tags: `? -/
def isUnclosedTagsMsg (e : DetectedError) : Bool :=
  listPrefixOf "Unclosed tags: ".data e.message.data

/-- Is the defect's kind `incomplete_code`? -/
def isIncompleteKind (e : DetectedError) : Bool :=
  e.type = ErrorType.incomplete_code

theorem str_data_append (a b : String) : (a ++ b).data = a.data ++ b.data := rfl

theorem prefUnexpSelf (s : List Char) :
    listPrefixOf "Unexpected closing tag: ".data ("Unexpected closing tag: </".data ++ s) = true := rfl

theorem prefUnclSelf (s : List Char) :
    listPrefixOf "Unclosed tags: ".data ("Unclosed tags: ".data ++ s) = true := rfl

theorem nprefUnexpUncl (s : List Char) :
    listPrefixOf "Unexpected closing tag: ".data ("Unclosed tags: ".data ++ s) = false := rfl

theorem nprefUnclUnexp (s : List Char) :
    listPrefixOf "Unclosed tags: ".data ("Unexpected closing tag: </".data ++ s) = false := rfl

theorem nprefUnexpBraces (s : List Char) :
    listPrefixOf "Unexpected closing tag: ".data ("Unmatched braces: ".data ++ s) = false := rfl

theorem nprefUnclBraces (s : List Char) :
    listPrefixOf "Unclosed tags: ".data ("Unmatched braces: ".data ++ s) = false := rfl

theorem nprefUnexpParens (s : List Char) :
    listPrefixOf "Unexpected closing tag: ".data ("Unmatched parentheses: ".data ++ s) = false := rfl

theorem nprefUnclParens (s : List Char) :
    listPrefixOf "Unclosed tags: ".data ("Unmatched parentheses: ".data ++ s) = false := rfl

theorem mem_scriptCheckErrors (js : List Char) (now : Nat) :
    ∀ e ∈ scriptCheckErrors js now,
      e.type = ErrorType.syntax_error ∧
      isUnexpectedClosingMsg e = false ∧ isUnclosedTagsMsg e = false := by
  intro e he
  unfold scriptCheckErrors at he
  simp only [List.mem_append] at he
  rcases he with (he | he) | he
  · split at he
    · simp only [List.mem_singleton] at he
      subst he
      exact ⟨rfl, rfl, rfl⟩
    · simp at he
  · split at he
    · simp only [List.mem_singleton] at he
      subst he
      refine ⟨rfl, ?_, ?_⟩
      · simp only [isUnexpectedClosingMsg, mkErr, str_data_append]
        exact nprefUnexpBraces _
      · simp only [isUnclosedTagsMsg, mkErr, str_data_append]
        exact nprefUnclBraces _
    · simp at he
  · split at he
    · simp only [List.mem_singleton] at he
      subst he
      refine ⟨rfl, ?_, ?_⟩
      · simp only [isUnexpectedClosingMsg, mkErr, str_data_append]
        exact nprefUnexpParens _
      · simp only [isUnclosedTagsMsg, mkErr, str_data_append]
        exact nprefUnclParens _
    · simp at he

theorem mem_scriptErrors (code : String) (now : Nat) :
    ∀ e ∈ scriptErrors code now,
      e.type = ErrorType.syntax_error ∧
      isUnexpectedClosingMsg e = false ∧ isUnclosedTagsMsg e = false := by
  intro e he
  unfold scriptErrors at he
  rw [List.mem_flatMap] at he
  obtain ⟨js, _, hj⟩ := he
  exact mem_scriptCheckErrors js now e hj

theorem mem_tagBalanceErrors_type (code : String) (now : Nat) :
    ∀ e ∈ tagBalanceErrors code now, e.type = ErrorType.syntax_error := by
  intro e he
  unfold tagBalanceErrors at he
  simp only [List.mem_append, List.mem_map] at he
  rcases he with ⟨t, _, rfl⟩ | he
  · rfl
  · split at he
    · simp at he
    · simp only [List.mem_singleton] at he
      subst he
      rfl

theorem countP_ite_single {c : Prop} [Decidable c] (e : DetectedError)
    (p : DetectedError → Bool) (hp : p e = false) :
    (if c then [e] else []).countP p = 0 := by
  split <;> simp [List.countP_cons, hp]

theorem countP_ite_single_true {c : Prop} [Decidable c] (e : DetectedError)
    (p : DetectedError → Bool) (hp : p e = true) :
    (if c then [e] else []).countP p = if c then 1 else 0 := by
  split <;> simp [List.countP_cons, hp]

/-- C4 counterexample: the empty artifact lacks the closing `</html>` tag,
yet Stage A reports two `incomplete_code` defects for that one condition —
the structure check at lines 64-70 and the completeness check at
lines 147-154 of src/types/errors.ts each push one — refuting "exactly
one". -/
theorem C4_two_incomplete_defects :
    strIncludes "" "</html>" = false ∧
    (detectSyntaxErrors "" 0).countP isIncompleteKind = 2 := by
  constructor
  · rfl
  · rfl

/-- C4 amended: for every artifact text, Stage A reports exactly two
`incomplete_code` defects when the text lacks the closing `</html>` tag (one
from the structure check, one from the completeness check — the source
duplicates the test) and none when the tag is present; no other check emits
an `incomplete_code` defect. -/
theorem C4_incomplete_count (code : String) (now : Nat) :
    (detectSyntaxErrors code now).countP isIncompleteKind =
    (if strIncludes code "</html>" then 0 else 2) := by
  unfold detectSyntaxErrors
  simp only [List.countP_append]
  rw [countP_ite_single (mkErr .syntax_error "Missing DOCTYPE declaration" now)
      isIncompleteKind rfl,
    countP_ite_single (mkErr .syntax_error "Missing <html> tag" now) isIncompleteKind rfl,
    countP_ite_single_true (mkErr .incomplete_code "Missing closing </html> tag" now)
      isIncompleteKind rfl,
    countP_ite_single_true
      (mkErr .incomplete_code "HTML document appears incomplete (missing </html>)" now)
      isIncompleteKind rfl,
    countP_ite_single (mkErr .syntax_error "Missing <body> tag" now) isIncompleteKind rfl]
  have htag : (tagBalanceErrors code now).countP isIncompleteKind = 0 := by
    rw [List.countP_eq_zero]
    intro e he
    simp [isIncompleteKind, mem_tagBalanceErrors_type code now e he]
  have hscript : (scriptErrors code now).countP isIncompleteKind = 0 := by
    rw [List.countP_eq_zero]
    intro e he
    simp [isIncompleteKind, (mem_scriptErrors code now e he).1]
  rw [htag, hscript]
  cases hh : strIncludes code "</html>" <;> simp [hh]

/-- C5: over the whole Stage A defect list, the number of defects whose
message is an unexpected-closing-tag report equals the number of closing
tags that found no match in the open-tag stack; the unclosed-tags report
occurs exactly once when open tags remain at end of scan (zero times
otherwise), and that single defect is a syntax defect whose message lists
all remaining tag names joined by commas; each unmatched closing tag `t`
contributes its own syntax defect. -/
theorem C5_tag_balance_reports (code : String) (now : Nat) :
    ((detectSyntaxErrors code now).countP isUnexpectedClosingMsg =
      (processClosings (collectOpenTags code.data) (scanCloseTags code.data)).2.length) ∧
    ((detectSyntaxErrors code now).countP isUnclosedTagsMsg =
      (if (processClosings (collectOpenTags code.data) (scanCloseTags code.data)).1.isEmpty
        then 0 else 1)) ∧
    ((processClosings (collectOpenTags code.data) (scanCloseTags code.data)).1.isEmpty = false →
      mkErr .syntax_error ("Unclosed tags: " ++
          joinComma (processClosings (collectOpenTags code.data) (scanCloseTags code.data)).1) now
        ∈ detectSyntaxErrors code now) ∧
    (∀ t ∈ (processClosings (collectOpenTags code.data) (scanCloseTags code.data)).2,
      mkErr .syntax_error ("Unexpected closing tag: </" ++ t ++ ">") now
        ∈ detectSyntaxErrors code now) := by
  have hdata : ∀ t : String, ("Unexpected closing tag: </" ++ t ++ ">").data =
      "Unexpected closing tag: </".data ++ (t.data ++ ">".data) := by
    intro t
    simp [str_data_append]
  have hdataU : ∀ l : List String, ("Unclosed tags: " ++ joinComma l).data =
      "Unclosed tags: ".data ++ (joinComma l).data := by
    intro l
    simp [str_data_append]
  refine ⟨?_, ?_, ?_, ?_⟩
  · unfold detectSyntaxErrors
    simp only [List.countP_append]
    rw [countP_ite_single (mkErr .syntax_error "Missing DOCTYPE declaration" now)
        isUnexpectedClosingMsg rfl,
      countP_ite_single (mkErr .syntax_error "Missing <html> tag" now)
        isUnexpectedClosingMsg rfl,
      countP_ite_single (mkErr .incomplete_code "Missing closing </html> tag" now)
        isUnexpectedClosingMsg rfl,
      countP_ite_single
        (mkErr .incomplete_code "HTML document appears incomplete (missing </html>)" now)
        isUnexpectedClosingMsg rfl,
      countP_ite_single (mkErr .syntax_error "Missing <body> tag" now)
        isUnexpectedClosingMsg rfl]
    have hscript : (scriptErrors code now).countP isUnexpectedClosingMsg = 0 := by
      rw [List.countP_eq_zero]
      intro e he
      simp [(mem_scriptErrors code now e he).2.1]
    rw [hscript]
    unfold tagBalanceErrors
    simp only [List.countP_append]
    have hall : ∀ e ∈ (processClosings (collectOpenTags code.data) (scanCloseTags code.data)).2.map
        (fun t => mkErr .syntax_error ("Unexpected closing tag: </" ++ t ++ ">") now),
          isUnexpectedClosingMsg e = true := by
      intro e he
      simp only [List.mem_map] at he
      obtain ⟨t, _, rfl⟩ := he
      simp only [isUnexpectedClosingMsg, mkErr, hdata t]
      exact prefUnexpSelf _
    have hmap := List.countP_eq_length.mpr hall
    rw [hmap, List.length_map]
    split
    · simp
    · simp only [List.countP_cons, List.countP_nil]
      have : isUnexpectedClosingMsg (mkErr .syntax_error ("Unclosed tags: " ++
          joinComma (processClosings (collectOpenTags code.data) (scanCloseTags code.data)).1) now)
          = false := by
        simp only [isUnexpectedClosingMsg, mkErr, hdataU]
        exact nprefUnexpUncl _
      simp [this]
  · unfold detectSyntaxErrors
    simp only [List.countP_append]
    rw [countP_ite_single (mkErr .syntax_error "Missing DOCTYPE declaration" now)
        isUnclosedTagsMsg rfl,
      countP_ite_single (mkErr .syntax_error "Missing <html> tag" now)
        isUnclosedTagsMsg rfl,
      countP_ite_single (mkErr .incomplete_code "Missing closing </html> tag" now)
        isUnclosedTagsMsg rfl,
      countP_ite_single
        (mkErr .incomplete_code "HTML document appears incomplete (missing </html>)" now)
        isUnclosedTagsMsg rfl,
      countP_ite_single (mkErr .syntax_error "Missing <body> tag" now)
        isUnclosedTagsMsg rfl]
    have hscript : (scriptErrors code now).countP isUnclosedTagsMsg = 0 := by
      rw [List.countP_eq_zero]
      intro e he
      simp [(mem_scriptErrors code now e he).2.2]
    rw [hscript]
    unfold tagBalanceErrors
    simp only [List.countP_append]
    have hmap : ((processClosings (collectOpenTags code.data) (scanCloseTags code.data)).2.map
        (fun t => mkErr .syntax_error ("Unexpected closing tag: </" ++ t ++ ">") now)).countP
          isUnclosedTagsMsg = 0 := by
      rw [List.countP_eq_zero]
      intro e he
      simp only [List.mem_map] at he
      obtain ⟨t, _, rfl⟩ := he
      have hp : isUnclosedTagsMsg
          (mkErr .syntax_error ("Unexpected closing tag: </" ++ t ++ ">") now) = false := by
        simp only [isUnclosedTagsMsg, mkErr, hdata t]
        exact nprefUnclUnexp _
      simp [hp]
    rw [hmap]
    split
    · simp
    · simp only [List.countP_cons, List.countP_nil]
      have : isUnclosedTagsMsg (mkErr .syntax_error ("Unclosed tags: " ++
          joinComma (processClosings (collectOpenTags code.data) (scanCloseTags code.data)).1) now)
          = true := by
        simp only [isUnclosedTagsMsg, mkErr, hdataU]
        exact prefUnclSelf _
      simp [this]
  · intro hne
    have hmem : mkErr .syntax_error ("Unclosed tags: " ++
        joinComma (processClosings (collectOpenTags code.data) (scanCloseTags code.data)).1) now
        ∈ tagBalanceErrors code now := by
      unfold tagBalanceErrors
      rw [List.mem_append]
      right
      rw [hne]
      simp
    unfold detectSyntaxErrors
    simp only [List.mem_append]
    tauto
  · intro t ht
    have hmem : mkErr .syntax_error ("Unexpected closing tag: </" ++ t ++ ">") now
        ∈ tagBalanceErrors code now := by
      unfold tagBalanceErrors
      rw [List.mem_append]
      left
      rw [List.mem_map]
      exact ⟨t, ht, rfl⟩
    unfold detectSyntaxErrors
    simp only [List.mem_append]
    tauto

/-- C5 witness: the concrete artifact `<div><span></b>` leaves the distinct
tags div and span unmatched and has one unexpected closing tag b. -/
theorem C5_tag_balance_reports_witness :
    ((processClosings (collectOpenTags "<div><span></b>".data)
        (scanCloseTags "<div><span></b>".data)).1.isEmpty = false) ∧
    (mkErr .syntax_error ("Unclosed tags: " ++
        joinComma (processClosings (collectOpenTags "<div><span></b>".data)
          (scanCloseTags "<div><span></b>".data)).1) 0
      ∈ detectSyntaxErrors "<div><span></b>" 0) ∧
    ("b" ∈ (processClosings (collectOpenTags "<div><span></b>".data)
        (scanCloseTags "<div><span></b>".data)).2) ∧
    (mkErr .syntax_error ("Unexpected closing tag: </" ++ "b" ++ ">") 0
      ∈ detectSyntaxErrors "<div><span></b>" 0) := by
  have h := C5_tag_balance_reports "<div><span></b>" 0
  refine ⟨by decide, h.2.2.1 (by decide), by decide, h.2.2.2 "b" (by decide)⟩

/-- C8: Stage A is deterministic and idempotent up to the wall-clock
timestamps it stamps on each defect: two runs on the same unchanged artifact
text produce defect lists with the same defects — same kinds, same messages,
in the same order. -/
theorem C8_detect_deterministic (code : String) (t1 t2 : Nat) :
    (detectSyntaxErrors code t1).map errKindMsg =
    (detectSyntaxErrors code t2).map errKindMsg := by
  have htag : (tagBalanceErrors code t1).map errKindMsg =
      (tagBalanceErrors code t2).map errKindMsg := by
    unfold tagBalanceErrors
    simp [apply_ite (List.map errKindMsg), errKindMsg, mkErr]
  have hone : ∀ js : List Char, (scriptCheckErrors js t1).map errKindMsg =
      (scriptCheckErrors js t2).map errKindMsg := by
    intro js
    unfold scriptCheckErrors
    simp [apply_ite (List.map errKindMsg), errKindMsg, mkErr]
  have hscript : (scriptErrors code t1).map errKindMsg =
      (scriptErrors code t2).map errKindMsg := by
    unfold scriptErrors
    induction ((scanScripts code.data).map stripScriptTags) with
    | nil => simp
    | cons js rest ih =>
      simp only [List.flatMap_cons, List.map_append, ih]
      rw [hone js]
  unfold detectSyntaxErrors
  simp only [List.map_append]
  rw [htag, hscript]
  simp [apply_ite (List.map errKindMsg), errKindMsg, mkErr]

/-- C9: running Stage A on a detector leaves the runtime-defect buffer
untouched — the method reads and writes no instance state — so `getErrors`
afterwards returns exactly what it returned before, and the returned defects
are the pure function of the artifact text alone. -/
theorem C9_detect_leaves_buffer (d : ErrorDetector) (code : String) (now : Nat) :
    ((d.detectSyntaxErrorsM code now).2.getErrors = d.getErrors) ∧
    ((d.detectSyntaxErrorsM code now).1 = detectSyntaxErrors code now) :=
  ⟨rfl, rfl⟩

/-- C10: every defect Stage A produces has kind `syntax_error` or
`incomplete_code`; no runtime, render, missing-dependency, layout or
generation-failure defect is ever emitted by the static check. -/
theorem C10_stageA_kinds (code : String) (now : Nat) :
    (detectSyntaxErrors code now).all
      (fun e => e.type = ErrorType.syntax_error ∨ e.type = ErrorType.incomplete_code) = true := by
  rw [List.all_eq_true]
  intro e he
  simp only [decide_eq_true_eq]
  unfold detectSyntaxErrors at he
  simp only [List.mem_append] at he
  rcases he with ((((((((he | he) | he) | he) | he) | he) | he) | he) | he)
  · split at he
    · simp only [List.mem_singleton] at he; subst he; left; rfl
    · simp at he
  · split at he
    · simp only [List.mem_singleton] at he; subst he; left; rfl
    · simp at he
  · split at he
    · simp only [List.mem_singleton] at he; subst he; right; rfl
    · simp at he
  · left; exact mem_tagBalanceErrors_type code now e he
  · left; exact (mem_scriptErrors code now e he).1
  · split at he
    · simp only [List.mem_singleton] at he; subst he; right; rfl
    · simp at he
  · split at he
    · simp only [List.mem_singleton] at he; subst he; left; rfl
    · simp at he
  · split at he
    · simp only [List.mem_singleton] at he; subst he; left; rfl
    · simp at he
  · split at he
    · simp only [List.mem_singleton] at he; subst he; left; rfl
    · simp at he

/-- C7: the code-level behaviour of the post-render inspection.  A detector
with no reachable document returns a `render_error` defect as the claim
states; and whenever the document's body exists, the inspection returns a
defect list and never throws.  But at the failing input — a reachable
document whose `body` is null — the method throws (the unguarded
`doc.body.innerText` dereference at line 259, directly after the line-250
guard `!doc.body` acknowledged that state), instead of reporting a `render`
defect: the claim describes the evident intent, the code has a slip. -/
theorem C7_analyze_throws_on_null_body :
    (noSurfaceDetector.analyzeRenderedOutput 0 =
      .ok [mkErr .render_error "Failed to render content in iframe" 0]) ∧
    (nullBodyDetector.analyzeRenderedOutput 0 =
      .error "TypeError: cannot read innerText of null document body") ∧
    (∀ (log : List DetectedError) (b : RBody) (imgs : List RImage) (els : List RElem)
        (dv : Bool) (now : Nat), ∃ es,
      (ErrorDetector.mk log (some (Iframe.mk (some (RWindow.mk
          (some (RDoc.mk (some b) imgs els dv))))))).analyzeRenderedOutput now =
        .ok es) := by
  refine ⟨rfl, rfl, ?_⟩
  intro log b imgs els dv now
  exact ⟨_, rfl⟩

end VibeCherry
